import Mathlib

/-!
Shallow embedding of the flaskban kanban-server domain logic.

The embedding mirrors, function by function, the Python source:
  * `MUsers`  — `flaskban-server/models/users.py` (User model, save, login),
  * `Domain`  — `flaskban_server/domain/models.py` (Board, Column, Task),
  * `Perms`   — the permission component (`setGrants`), whose implementation
                is absent from the source tree (the resource is a documented
                stub), modelled from the specification.

The relational store is modelled as explicit lists of rows; each operation
takes the store and returns an `Except` of the domain error hierarchy
(`errors.py`).  Machine-level collaborators (the password hash, the ORM
query object) are modelled explicitly where their behaviour is observable.
-/

namespace FlaskBan

/-- The error hierarchy of `errors.py`: every domain operation raises one of
these client errors, each carrying a message. `conflict` carries the list of
unknown permission names (the 409 body of the permissions endpoint), and
`ormError` stands for an exception escaping from the ORM itself (for example
`Query.one()` on an empty result, or an `AttributeError`). -/
inductive Err where
  | invalidData (msg : String)
  | alreadyExists (msg : String)
  | notFound (msg : String)
  | unauthorized (msg : String)
  | conflict (unknownNames : List String)
  | ormError
  deriving Repr, DecidableEq

/-- Python truthiness of an optional string field: `None` and `""` are falsy,
every other string is truthy.  This is the semantics of `if not self.name`. -/
def truthy : Option String → Bool
  | none => false
  | some s => !s.isEmpty

/-- SQL comparison of two nullable string columns: `a = b` is satisfied only
when both sides are non-NULL and equal (NULL comparisons are never true). -/
def sqlEq : Option String → Option String → Bool
  | some a, some b => a == b
  | _, _ => false

namespace MUsers

/-- The `User` model of `models/users.py`: `name`, `email` and the stored
`_password` column are nullable strings in memory (before validation). -/
structure User where
  id_ : Nat
  name : Option String
  email : Option String
  passwordCol : Option String
  deriving Repr, DecidableEq

/-- The user table: a list of stored rows. -/
abbrev UserDB := List User

/-- Model of the external password-hash collaborator (`pbkdf2_sha256.hash`):
an injective tagging function; the exact digest is outside the core. -/
def hashPw (plain : String) : String := "pbkdf2-sha256$" ++ plain

/-- Model of `pbkdf2_sha256.verify(plain, stored)`: the stored column verifies
exactly when it is the hash of the plaintext. -/
def verifyPw (plain : String) (stored : Option String) : Bool :=
  stored == some (hashPw plain)

/-- `User.find_by_name`: `cls.query.filter_by(name=name).first()` — the first
stored row whose name column equals the given string, if any. -/
def find_by_name (db : UserDB) (name : String) : Option User :=
  db.find? (fun r => sqlEq r.name (some name))

/-- `User.find_by_email`: `cls.query.filter_by(email=email)` — NOTE: the
source omits `.first()`, so the function returns the query itself, not a row.
The query is modelled by the list of rows it would produce. -/
def find_by_email (db : UserDB) (email : Option String) : List User :=
  db.filter (fun r => sqlEq r.email email)

/-- Python truthiness of a SQLAlchemy `Query` object: `Query` defines neither
`__bool__` nor `__len__`, so `bool(query)` is `True` whatever the query. -/
def queryTruthy (_q : List User) : Bool := true

/-- `User._already_saved`: one EXISTS query over the disjunction
`(User.name == self.name) | (User.email == self.email)`. -/
def already_saved (db : UserDB) (u : User) : Bool :=
  db.any (fun r => sqlEq r.name u.name || sqlEq r.email u.email)

/-- `User.save`: `InvalidDataError` when name, password or email is falsy;
`AlreadyExistsError` when `_already_saved` holds; otherwise the row is
inserted and committed. -/
def save (db : UserDB) (u : User) : Except Err UserDB :=
  if !truthy u.name || !truthy u.passwordCol || !truthy u.email then
    .error (.invalidData "Required fields are not present")
  else if already_saved db u then
    .error (.alreadyExists "User already exists")
  else
    .ok (db ++ [u])

/-- Outcome of `login`: a token bound to the user id, an
`UnauthorizedError`, or an uncaught Python `AttributeError`. -/
inductive LoginResult where
  | token (uid : Nat)
  | unauthorizedErr (msg : String)
  | attributeError
  deriving Repr, DecidableEq

/-- The message used for both failed-login causes. -/
def wrongCredsMsg : String := "Wrong username or password"

/-- The `else` branch of `login`: `db_user = User.find_by_email(user.email)`.
Because `find_by_email` returns the query object itself, `not db_user` is
always false, and the subsequent `db_user.password` attribute access raises
`AttributeError` (a `Query` has no `password` attribute). -/
def loginEmailBranch (db : UserDB) (u : User) : LoginResult :=
  let q := find_by_email db u.email
  if !queryTruthy q then .unauthorizedErr wrongCredsMsg
  else .attributeError

/-- `login(user)` of `models/users.py`: looks up by name when `user.name` is
truthy, else by email; raises `UnauthorizedError` when no user is found or
the password does not verify; on success issues a token for the row's id. -/
def login (db : UserDB) (u : User) : LoginResult :=
  match u.name with
  | some s =>
    if s.isEmpty then loginEmailBranch db u
    else
      match find_by_name db s with
      | none => .unauthorizedErr wrongCredsMsg
      | some r =>
        if verifyPw (u.passwordCol.getD "") r.passwordCol then .token r.id_
        else .unauthorizedErr wrongCredsMsg
  | none => loginEmailBranch db u

end MUsers

namespace Domain

/-- `Visibility` enum of `domain/models.py` (`private = 1`, `public = 2`);
both members are truthy in Python, only `None` is falsy. -/
inductive Visibility where
  | private_
  | public_
  deriving Repr, DecidableEq

/-- The `Board` model: surrogate id, nullable in-memory `name` and
`visibility` columns. -/
structure BoardRec where
  id_ : Nat
  name : Option String
  visibility : Option Visibility
  deriving Repr, DecidableEq

/-- The `Column` model: id, nullable in-memory `name`, owning board id. -/
structure ColumnRec where
  id_ : Nat
  name : Option String
  board_id : Nat
  deriving Repr, DecidableEq

/-- The `Task` model: id, nullable `name`/`description`, owning board and
column ids, optional assigned user. -/
structure TaskRec where
  id_ : Nat
  name : Option String
  description : Option String
  board_id : Nat
  column_id : Nat
  user_id : Option Nat
  deriving Repr, DecidableEq

/-- The relational store seen by `domain/models.py`: the three tables. -/
structure KanbanDB where
  boards : List BoardRec
  columns : List ColumnRec
  tasks : List TaskRec
  deriving Repr, DecidableEq

/-- Message of the board-level `NotFoundError`
(`f'Board with id {id_} does not exist'`). -/
def boardNotFoundMsg (id_ : Nat) : String :=
  "Board with id " ++ toString id_ ++ " does not exist"

/-- Message of the column-in-board `NotFoundError` raised by
`Column.find_by_ids`
(`f'Column with id {column_id} does not exist in board with id {board_id}'`). -/
def columnNotFoundMsg (column_id board_id : Nat) : String :=
  "Column with id " ++ toString column_id ++
    " does not exist in board with id " ++ toString board_id

/-- Message of the column-in-board `NotFoundError` raised by
`Task.exists_in_column_by_name`; the source f-string ends with a stray quote
character, reproduced faithfully. -/
def taskColumnNotFoundMsg (column_id board_id : Nat) : String :=
  "Column with id " ++ toString column_id ++
    " does not exist in board with id " ++ toString board_id ++ "\""

/-- Python `str()` of a nullable string column, as an f-string renders it. -/
def optStr : Option String → String
  | some s => s
  | none => "None"

/-- Message of `Column.save_to_board`'s `AlreadyExistsError`. -/
def columnAlreadyExistsMsg (name : Option String) (board_id : Nat) : String :=
  "Column with name \"" ++ optStr name ++
    "\" already exists in board with id " ++ toString board_id

/-- Message of `Task.save_to_board`'s `AlreadyExistsError`. -/
def taskAlreadyExistsMsg (name : Option String) (column_id : Nat) : String :=
  "Task with name \"" ++ optStr name ++
    "\" already exists in column with id " ++ toString column_id

namespace Board

/-- `Board.exists_by_id`: an EXISTS query on the board id. -/
def exists_by_id (db : KanbanDB) (id_ : Nat) : Bool :=
  db.boards.any (fun b => b.id_ == id_)

/-- `Board.find_by_id`: `cls.query.get(id_)`, raising `NotFoundError` when
no board has the id. -/
def find_by_id (db : KanbanDB) (id_ : Nat) : Except Err BoardRec :=
  match db.boards.find? (fun b => b.id_ == id_) with
  | some b => .ok b
  | none => .error (.notFound (boardNotFoundMsg id_))

/-- `Board.delete`: `NotFoundError` when the board is absent; otherwise the
board row is deleted and the ORM cascade removes every column of the board
(`cascade='delete'` on `Board.columns`) and, transitively, every task of
those columns (`cascade='delete'` on `Column.tasks`). -/
def delete (db : KanbanDB) (id_ : Nat) : Except Err KanbanDB :=
  if !exists_by_id db id_ then
    .error (.notFound (boardNotFoundMsg id_))
  else
    let deadCols := db.columns.filter (fun c => c.board_id == id_)
    .ok { boards := db.boards.filter (fun b => !(b.id_ == id_)),
          columns := db.columns.filter (fun c => !(c.board_id == id_)),
          tasks := db.tasks.filter
            (fun t => !(deadCols.any (fun c => c.id_ == t.column_id))) }

/-- `Board.merge`: copies `name` and `visibility` from `other` into `self`
only when the corresponding field of `other` is truthy (for the enum-valued
`visibility`, truthy means present). -/
def merge (self other : BoardRec) : BoardRec :=
  let s1 := if truthy other.name then { self with name := other.name } else self
  if other.visibility.isSome then { s1 with visibility := other.visibility } else s1

end Board

namespace Column

/-- `Column.exists_in_board_by_id`: EXISTS on `(board_id, id)`. -/
def exists_in_board_by_id (db : KanbanDB) (board_id column_id : Nat) : Bool :=
  db.columns.any (fun c => c.board_id == board_id && c.id_ == column_id)

/-- `Column.exists_in_board_by_name`: EXISTS on `(board_id, name)`. -/
def exists_in_board_by_name (db : KanbanDB) (board_id : Nat)
    (name : Option String) : Bool :=
  db.columns.any (fun c => c.board_id == board_id && sqlEq c.name name)

/-- `Column.find_by_ids`: board-level `NotFoundError` when the board is
absent, column-in-board `NotFoundError` when the column id is not a member
of the board, else the unique matching row (`Query.one()`; its own
no-result exception is unreachable behind the EXISTS guard). -/
def find_by_ids (db : KanbanDB) (board_id column_id : Nat) :
    Except Err ColumnRec :=
  if !Board.exists_by_id db board_id then
    .error (.notFound (boardNotFoundMsg board_id))
  else if !exists_in_board_by_id db board_id column_id then
    .error (.notFound (columnNotFoundMsg column_id board_id))
  else
    match db.columns.find? (fun c => c.board_id == board_id && c.id_ == column_id) with
    | some c => .ok c
    | none => .error .ormError

/-- `Column.delete`: delegates the existence and ownership checks to
`find_by_ids` (propagating its errors), then deletes the row; the ORM
cascade removes the tasks of the column. -/
def delete (db : KanbanDB) (board_id column_id : Nat) : Except Err KanbanDB :=
  match find_by_ids db board_id column_id with
  | .error e => .error e
  | .ok col =>
    .ok { db with
          columns := db.columns.filter (fun c => !(c.id_ == col.id_)),
          tasks := db.tasks.filter (fun t => !(t.column_id == col.id_)) }

/-- `Column.merge`: copies `name` from `other` only when it is truthy. -/
def merge (self other : ColumnRec) : ColumnRec :=
  if truthy other.name then { self with name := other.name } else self

/-- `Column.save_to_board`: board-level `NotFoundError` when the board is
absent; `AlreadyExistsError` when a column with the same name exists in the
board; otherwise `board_id` is assigned and the row inserted.  The first
component is the in-memory column object after the call. -/
def save_to_board (db : KanbanDB) (self : ColumnRec) (board_id : Nat) :
    ColumnRec × Except Err KanbanDB :=
  if !Board.exists_by_id db board_id then
    (self, .error (.notFound (boardNotFoundMsg board_id)))
  else if exists_in_board_by_name db board_id self.name then
    (self, .error (.alreadyExists (columnAlreadyExistsMsg self.name board_id)))
  else
    let self' := { self with board_id := board_id }
    (self', .ok { db with columns := db.columns ++ [self'] })

end Column

namespace Task

/-- `Task.exists_in_column_by_name`: validates that the board exists, then
that the column is a member of the board (raising the two `NotFoundError`s
in that order), then answers the EXISTS query on
`(board_id, column_id, name)`. -/
def exists_in_column_by_name (db : KanbanDB) (board_id column_id : Nat)
    (name : Option String) : Except Err Bool :=
  if !Board.exists_by_id db board_id then
    .error (.notFound (boardNotFoundMsg board_id))
  else if !Column.exists_in_board_by_id db board_id column_id then
    .error (.notFound (taskColumnNotFoundMsg column_id board_id))
  else
    .ok (db.tasks.any (fun t =>
      t.board_id == board_id && t.column_id == column_id && sqlEq t.name name))

/-- `Task.save_to_board`: first assigns `self.board_id = board_id`, then
consults `exists_in_column_by_name` (whose `NotFoundError`s propagate),
raises `AlreadyExistsError` on a name collision in the column, and otherwise
inserts the row.  The first component is the in-memory task object after the
call. -/
def save_to_board (db : KanbanDB) (self : TaskRec) (board_id : Nat) :
    TaskRec × Except Err KanbanDB :=
  let self' := { self with board_id := board_id }
  match exists_in_column_by_name db board_id self'.column_id self'.name with
  | .error e => (self', .error e)
  | .ok true =>
    (self', .error (.alreadyExists (taskAlreadyExistsMsg self'.name self'.column_id)))
  | .ok false => (self', .ok { db with tasks := db.tasks ++ [self'] })

end Task

end Domain

namespace Perms

/-- Modelled from the spec: the fixed, closed capability catalog returned by
`GET /permissions` (the `UserPermissions` resource in `resources/perms.py`
is a documented stub with no implementation); names as enumerated by the
spec's catalog examples and the resource documentation. -/
def CATALOG : List String :=
  ["COLUMN_CREATE", "COLUMN_DELETE", "TASK_CREATE", "BOARD_VIEW"]

/-- A stored grant row: the set of capability names a user holds on a board. -/
structure GrantRow where
  board_id : Nat
  user_id : Nat
  perms : List String
  deriving Repr, DecidableEq

/-- The store seen by the permission component: existing board ids, user
ids, and the grant rows. -/
structure PermDB where
  boards : List Nat
  users : List Nat
  grants : List GrantRow
  deriving Repr, DecidableEq

/-- The stored grant set of `(board_id, user_id)`; absence of a row means
zero capabilities. -/
def getGrants (db : PermDB) (board_id user_id : Nat) : List String :=
  match db.grants.find? (fun g => g.board_id == board_id && g.user_id == user_id) with
  | some g => g.perms
  | none => []

/-- Modelled from the spec: `setGrants(boardId, userId, requestedNames)`
(`UserPermissions.put` has no body in the source).  Fails `NotFoundError`
when the board or the user is absent; validates every requested name against
the catalog and fails with a conflict naming exactly the unknown entries;
on success atomically replaces the stored grant set wholesale. -/
def setGrants (db : PermDB) (board_id user_id : Nat) (names : List String) :
    Except Err PermDB :=
  if !db.boards.contains board_id then
    .error (.notFound (Domain.boardNotFoundMsg board_id))
  else if !db.users.contains user_id then
    .error (.notFound ("User with id " ++ toString user_id ++ " does not exist"))
  else
    let unknown := names.filter (fun n => !CATALOG.contains n)
    if unknown.isEmpty then
      .ok { db with grants :=
        db.grants.filter (fun g => !(g.board_id == board_id && g.user_id == user_id))
          ++ [⟨board_id, user_id, names⟩] }
    else
      .error (.conflict unknown)

end Perms

/-! ## Fixtures: concrete stores used by closed statements -/

/-- A user table holding the one registered user of the spec's login
scenario: name `john`, email `john@x.com`, password `pwd`. -/
def johnDB : MUsers.UserDB :=
  [⟨1, some "john", some "john@x.com", some (MUsers.hashPw "pwd")⟩]

/-- A store with no boards but one task in column 1 named `t`: a name
collision and a missing board at the same time. -/
def noBoardDB : Domain.KanbanDB :=
  ⟨[], [], [⟨1, some "t", none, 1, 1, none⟩]⟩

/-! ## Theorems -/

/-- C1: login by name treats an unknown user and a wrong password alike
(`UnauthorizedError`, message `Wrong username or password`), but login by
email never reaches that error: `find_by_email` omits `.first()` and returns
the query object, which is truthy, so the `password` attribute access on it
raises `AttributeError` — for a non-registered email (and even a registered
one) the call crashes instead of raising `UnauthorizedError`. -/
theorem c1_login_by_email_raises_attribute_error :
    MUsers.login johnDB ⟨0, some "john", none, some "pwd"⟩ = .token 1 ∧
    MUsers.login johnDB ⟨0, some "john", none, some "wrong"⟩ =
      .unauthorizedErr MUsers.wrongCredsMsg ∧
    MUsers.login johnDB ⟨0, some "nouser", none, some "pwd"⟩ =
      .unauthorizedErr MUsers.wrongCredsMsg ∧
    MUsers.login johnDB ⟨0, none, some "nouser@x.com", some "pwd"⟩ =
      .attributeError ∧
    MUsers.login johnDB ⟨0, none, some "john@x.com", some "pwd"⟩ =
      .attributeError := by
  decide

/-- C5 counterexample: a patch whose `name` is the empty string is non-null,
yet `Board.merge` leaves the target's name unchanged (`some "alpha"`), so
the merged name does not equal the patch's name. -/
theorem c5_counterexample :
    (some "" : Option String).isSome = true ∧
    Domain.Board.merge ⟨1, some "alpha", some .private_⟩ ⟨2, some "", none⟩ =
      ⟨1, some "alpha", some .private_⟩ ∧
    (Domain.Board.merge ⟨1, some "alpha", some .private_⟩ ⟨2, some "", none⟩).name ≠
      some "" := by
  decide

/-- C5 (amended): `Board.merge` copies `name` from the patch exactly when it
is truthy (non-null and non-empty), copies `visibility` exactly when it is
non-null, never alters `id`, and an all-null patch leaves the target
entirely unchanged. -/
theorem c5_merge_copies_truthy_fields_only : ∀ (t p : Domain.BoardRec),
    (Domain.Board.merge t p).name = (if truthy p.name then p.name else t.name) ∧
    (Domain.Board.merge t p).visibility =
      (if p.visibility.isSome then p.visibility else t.visibility) ∧
    (Domain.Board.merge t p).id_ = t.id_ ∧
    Domain.Board.merge t ⟨p.id_, none, none⟩ = t := by
  intro t p
  rcases t with ⟨ti, tn, tv⟩
  rcases p with ⟨pi, pn, pv⟩
  cases pv <;> cases h : truthy pn <;>
    simp_all [Domain.Board.merge, truthy]

/-- C9: `Task.save_to_board` assigns the argument to the task's `board_id`
field before any validation: on every path — both error paths included — the
in-memory task object after the call is the input task with `board_id`
overwritten by the argument. -/
theorem c9_save_to_board_overwrites_board_id_first :
    ∀ (db : Domain.KanbanDB) (task : Domain.TaskRec) (board_id : Nat),
    (Domain.Task.save_to_board db task board_id).1 =
      { task with board_id := board_id } := by
  intro db task board_id
  simp only [Domain.Task.save_to_board]
  split <;> rfl

/-- C10: for both `Board.merge` and `Column.merge`, a patch whose `name` is
the empty string behaves exactly like a patch whose `name` is absent — the
target's name is left unchanged (the guard tests truthiness, not
presence). -/
theorem c10_empty_string_name_treated_as_absent :
    ∀ (t : Domain.BoardRec) (i : Nat) (v : Option Domain.Visibility)
      (c : Domain.ColumnRec) (j b : Nat),
    Domain.Board.merge t ⟨i, some "", v⟩ = Domain.Board.merge t ⟨i, none, v⟩ ∧
    (Domain.Board.merge t ⟨i, some "", v⟩).name = t.name ∧
    Domain.Column.merge c ⟨j, some "", b⟩ = Domain.Column.merge c ⟨j, none, b⟩ ∧
    (Domain.Column.merge c ⟨j, some "", b⟩).name = c.name := by
  intro t i v c j b
  have he : ("" : String).isEmpty = true := rfl
  cases v <;>
    simp [Domain.Board.merge, Domain.Column.merge, truthy, he]

/-- The board-level not-found message and the column-in-board not-found
message always differ: their lengths cannot agree. -/
theorem board_col_msg_ne (board_id column_id : Nat) :
    Domain.boardNotFoundMsg board_id ≠ Domain.columnNotFoundMsg column_id board_id := by
  intro h
  have h2 := congrArg String.length h
  simp only [Domain.boardNotFoundMsg, Domain.columnNotFoundMsg,
    String.length_append] at h2
  have e1 : ("Board with id " : String).length = 14 := rfl
  have e2 : (" does not exist" : String).length = 15 := rfl
  have e3 : ("Column with id " : String).length = 15 := rfl
  have e4 : (" does not exist in board with id " : String).length = 33 := rfl
  rw [e1, e2, e3, e4] at h2
  omega

/-- C4: `User.save` raises `InvalidDataError` exactly when one of name,
password, email is falsy (empty or absent); with all fields present it
raises `AlreadyExistsError` exactly when a stored row shares the name or the
email (one EXISTS over the disjunction, evaluated before the insert) and
otherwise appends the row; in particular a second user sharing the name or
the email of any stored row fails `AlreadyExistsError`. -/
theorem c4_user_save_validation_and_uniqueness :
    ∀ (db : MUsers.UserDB) (u : MUsers.User),
    ((!truthy u.name || !truthy u.passwordCol || !truthy u.email) = true →
      MUsers.save db u = .error (.invalidData "Required fields are not present")) ∧
    ((!truthy u.name || !truthy u.passwordCol || !truthy u.email) = false →
      (MUsers.already_saved db u = true →
        MUsers.save db u = .error (.alreadyExists "User already exists")) ∧
      (MUsers.already_saved db u = false →
        MUsers.save db u = .ok (db ++ [u])) ∧
      (∀ v ∈ db, (sqlEq v.name u.name || sqlEq v.email u.email) = true →
        MUsers.save db u = .error (.alreadyExists "User already exists"))) := by
  intro db u
  refine ⟨fun h => by simp [MUsers.save, h], fun h => ⟨?_, ?_, ?_⟩⟩
  · intro ha
    simp [MUsers.save, h, ha]
  · intro ha
    simp [MUsers.save, h, ha]
  · intro v hv hmatch
    have ha : MUsers.already_saved db u = true := by
      simp only [MUsers.already_saved, List.any_eq_true]
      exact ⟨v, hv, hmatch⟩
    simp [MUsers.save, h, ha]

/-- C6: when `Task.save_to_board` is called with a name that already
collides inside the target column, a missing board still raises the
board-level `NotFoundError`, and an existing board with a column that is not
its member still raises the column-in-board `NotFoundError`: existence is
checked before name uniqueness, so `NotFoundError` takes precedence over
`AlreadyExistsError`. -/
theorem c6_not_found_precedes_already_exists :
    ∀ (db : Domain.KanbanDB) (task : Domain.TaskRec) (board_id : Nat),
    db.tasks.any (fun t =>
      t.board_id == board_id && t.column_id == task.column_id &&
        sqlEq t.name task.name) = true →
    (Domain.Board.exists_by_id db board_id = false →
      (Domain.Task.save_to_board db task board_id).2 =
        .error (.notFound (Domain.boardNotFoundMsg board_id))) ∧
    (Domain.Board.exists_by_id db board_id = true →
      Domain.Column.exists_in_board_by_id db board_id task.column_id = false →
      (Domain.Task.save_to_board db task board_id).2 =
        .error (.notFound (Domain.taskColumnNotFoundMsg task.column_id board_id))) := by
  intro db task board_id _
  constructor
  · intro hb
    simp [Domain.Task.save_to_board, Domain.Task.exists_in_column_by_name, hb]
  · intro hb hc
    simp [Domain.Task.save_to_board, Domain.Task.exists_in_column_by_name, hb, hc]

/-- C6 witness: in a store with no board but a colliding task name, saving
the task to board 1 fails with the board-level `NotFoundError`. -/
theorem c6_witness :
    (Domain.Task.save_to_board noBoardDB ⟨2, some "t", none, 9, 1, none⟩ 1).2 =
      .error (.notFound (Domain.boardNotFoundMsg 1)) :=
  (c6_not_found_precedes_already_exists noBoardDB ⟨2, some "t", none, 9, 1, none⟩ 1
    (by decide)).1 (by decide)

/-- C7: `Column.save_to_board` fails with the board-level `NotFoundError`
when the board is absent; fails with `AlreadyExistsError` when a column with
the same name already exists in the board; and otherwise sets the column's
`board_id` to the given id and appends the row to the store. -/
theorem c7_column_save_to_board_spec :
    ∀ (db : Domain.KanbanDB) (col : Domain.ColumnRec) (board_id : Nat),
    (Domain.Board.exists_by_id db board_id = false →
      Domain.Column.save_to_board db col board_id =
        (col, .error (.notFound (Domain.boardNotFoundMsg board_id)))) ∧
    (Domain.Board.exists_by_id db board_id = true →
      (Domain.Column.exists_in_board_by_name db board_id col.name = true →
        Domain.Column.save_to_board db col board_id =
          (col, .error (.alreadyExists
            (Domain.columnAlreadyExistsMsg col.name board_id)))) ∧
      (Domain.Column.exists_in_board_by_name db board_id col.name = false →
        Domain.Column.save_to_board db col board_id =
          ({ col with board_id := board_id },
           .ok { db with columns :=
             db.columns ++ [{ col with board_id := board_id }] }))) := by
  intro db col board_id
  refine ⟨fun hb => by simp [Domain.Column.save_to_board, hb], fun hb => ⟨?_, ?_⟩⟩
  · intro hn
    simp [Domain.Column.save_to_board, hb, hn]
  · intro hn
    simp [Domain.Column.save_to_board, hb, hn]

/-- C8: `Column.find_by_ids` fails with the board-specific `NotFoundError`
when the board is absent, with the distinct column-in-board `NotFoundError`
when the board exists but the column id is not a member of it, and otherwise
returns the matching column; `Column.delete` delegates to `find_by_ids` and
propagates exactly these errors. -/
theorem c8_find_by_ids_two_level_not_found :
    ∀ (db : Domain.KanbanDB) (board_id column_id : Nat),
    (Domain.Board.exists_by_id db board_id = false →
      Domain.Column.find_by_ids db board_id column_id =
        .error (.notFound (Domain.boardNotFoundMsg board_id)) ∧
      Domain.Column.delete db board_id column_id =
        .error (.notFound (Domain.boardNotFoundMsg board_id))) ∧
    (Domain.Board.exists_by_id db board_id = true →
      Domain.Column.exists_in_board_by_id db board_id column_id = false →
      Domain.Column.find_by_ids db board_id column_id =
        .error (.notFound (Domain.columnNotFoundMsg column_id board_id)) ∧
      Domain.Column.delete db board_id column_id =
        .error (.notFound (Domain.columnNotFoundMsg column_id board_id))) ∧
    Domain.boardNotFoundMsg board_id ≠ Domain.columnNotFoundMsg column_id board_id ∧
    (Domain.Board.exists_by_id db board_id = true →
      Domain.Column.exists_in_board_by_id db board_id column_id = true →
      ∃ c, Domain.Column.find_by_ids db board_id column_id = .ok c ∧
        c.board_id = board_id ∧ c.id_ = column_id) ∧
    (∀ e, Domain.Column.find_by_ids db board_id column_id = .error e →
      Domain.Column.delete db board_id column_id = .error e) := by
  intro db board_id column_id
  refine ⟨?_, ?_, board_col_msg_ne board_id column_id, ?_, ?_⟩
  · intro hb
    constructor
    · simp [Domain.Column.find_by_ids, hb]
    · simp [Domain.Column.delete, Domain.Column.find_by_ids, hb]
  · intro hb hc
    constructor
    · simp [Domain.Column.find_by_ids, hb, hc]
    · simp [Domain.Column.delete, Domain.Column.find_by_ids, hb, hc]
  · intro hb hc
    obtain ⟨c, hmem, hp⟩ : ∃ x ∈ db.columns,
        (x.board_id == board_id && x.id_ == column_id) = true := by
      simpa [Domain.Column.exists_in_board_by_id, List.any_eq_true] using hc
    cases hfind : db.columns.find?
        (fun c => c.board_id == board_id && c.id_ == column_id) with
    | none =>
      rw [List.find?_eq_none] at hfind
      exact absurd hp (by simpa using hfind c hmem)
    | some c' =>
      have hp' := List.find?_some hfind
      simp only [Bool.and_eq_true, beq_iff_eq] at hp'
      exact ⟨c', by simp [Domain.Column.find_by_ids, hb, hc, hfind],
        hp'.1, hp'.2⟩
  · intro e he
    simp [Domain.Column.delete, he]

/-- Filtering a list down to the elements refuting a predicate leaves no
element satisfying it. -/
theorem any_filter_not {α : Type} (p : α → Bool) (l : List α) :
    (l.filter (fun x => !(p x))).any p = false := by
  apply Bool.eq_false_iff.mpr
  intro h
  obtain ⟨x, hm, hp⟩ := List.any_eq_true.mp h
  rw [List.mem_filter] at hm
  simp [hp] at hm

/-- A board lookup on a store where the board does not exist raises the
board-level `NotFoundError`. -/
theorem find_by_id_board_absent (db : Domain.KanbanDB) (id_ : Nat)
    (h : Domain.Board.exists_by_id db id_ = false) :
    Domain.Board.find_by_id db id_ =
      .error (.notFound (Domain.boardNotFoundMsg id_)) := by
  have hn : db.boards.find? (fun b => b.id_ == id_) = none := by
    rw [List.find?_eq_none]
    intro b hbm hbp
    have hany : db.boards.any (fun b => b.id_ == id_) = true :=
      List.any_eq_true.mpr ⟨b, hbm, hbp⟩
    simp only [Domain.Board.exists_by_id] at h
    rw [hany] at h
    exact Bool.noConfusion h
  simp [Domain.Board.find_by_id, hn]

/-- A column lookup on a store where the board does not exist raises the
board-level `NotFoundError`. -/
theorem find_by_ids_board_absent (db : Domain.KanbanDB) (board_id column_id : Nat)
    (h : Domain.Board.exists_by_id db board_id = false) :
    Domain.Column.find_by_ids db board_id column_id =
      .error (.notFound (Domain.boardNotFoundMsg board_id)) := by
  simp [Domain.Column.find_by_ids, h]

/-- A task lookup on a store where the board does not exist raises the
board-level `NotFoundError`. -/
theorem task_lookup_board_absent (db : Domain.KanbanDB)
    (board_id column_id : Nat) (name : Option String)
    (h : Domain.Board.exists_by_id db board_id = false) :
    Domain.Task.exists_in_column_by_name db board_id column_id name =
      .error (.notFound (Domain.boardNotFoundMsg board_id)) := by
  simp [Domain.Task.exists_in_column_by_name, h]

/-- C3: `Board.delete` raises `NotFoundError` when the board is absent;
otherwise it removes the board and, via the ORM cascade, every column whose
`board_id` is the deleted id and every task in those columns, so that the
subsequent board lookup, the lookups of its former columns, and the task
lookups inside the board all fail with `NotFoundError`. -/
theorem c3_board_delete_cascades :
    ∀ (db : Domain.KanbanDB) (id_ : Nat),
    (Domain.Board.exists_by_id db id_ = false →
      Domain.Board.delete db id_ =
        .error (.notFound (Domain.boardNotFoundMsg id_))) ∧
    (Domain.Board.exists_by_id db id_ = true →
      ∃ db', Domain.Board.delete db id_ = .ok db' ∧
        Domain.Board.find_by_id db' id_ =
          .error (.notFound (Domain.boardNotFoundMsg id_)) ∧
        (∀ c ∈ db.columns, c.board_id = id_ → c ∉ db'.columns ∧
          Domain.Column.find_by_ids db' id_ c.id_ =
            .error (.notFound (Domain.boardNotFoundMsg id_))) ∧
        (∀ t ∈ db.tasks,
          (∃ c ∈ db.columns, c.board_id = id_ ∧ c.id_ = t.column_id) →
          t ∉ db'.tasks) ∧
        (∀ column_id name,
          Domain.Task.exists_in_column_by_name db' id_ column_id name =
            .error (.notFound (Domain.boardNotFoundMsg id_)))) := by
  intro db id_
  constructor
  · intro hb
    simp [Domain.Board.delete, hb]
  · intro hb
    refine ⟨⟨db.boards.filter (fun b => !(b.id_ == id_)),
             db.columns.filter (fun c => !(c.board_id == id_)),
             db.tasks.filter (fun t =>
               !((db.columns.filter (fun c => c.board_id == id_)).any
                 (fun c => c.id_ == t.column_id)))⟩,
           by simp [Domain.Board.delete, hb], ?_, ?_, ?_, ?_⟩
    · exact find_by_id_board_absent _ _
        (any_filter_not (fun b : Domain.BoardRec => b.id_ == id_) db.boards)
    · intro c hcmem hcb
      constructor
      · intro habs
        have habs' : c ∈ db.columns.filter (fun c => !(c.board_id == id_)) := habs
        rw [List.mem_filter] at habs'
        simp [hcb] at habs'
      · exact find_by_ids_board_absent _ _ _
          (any_filter_not (fun b : Domain.BoardRec => b.id_ == id_) db.boards)
    · intro t htmem ⟨c, hcmem, hcb, hcid⟩
      intro habs
      have habs' : t ∈ db.tasks.filter (fun t =>
          !((db.columns.filter (fun c => c.board_id == id_)).any
            (fun c => c.id_ == t.column_id))) := habs
      rw [List.mem_filter] at habs'
      have hlive : (db.columns.filter (fun c => c.board_id == id_)).any
          (fun c => c.id_ == t.column_id) = true := by
        rw [List.any_eq_true]
        exact ⟨c, by rw [List.mem_filter]; exact ⟨hcmem, by simp [hcb]⟩,
          by simp [hcid]⟩
      simp [hlive] at habs'
    · intro column_id name
      exact task_lookup_board_absent _ _ _ _
        (any_filter_not (fun b : Domain.BoardRec => b.id_ == id_) db.boards)

/-- Removing from a list exactly the elements satisfying `p` does not change
the result of a search whose predicate `q` is disjoint from `p`. -/
theorem find?_filter_disjoint {α : Type} (p q : α → Bool) (l : List α)
    (h : ∀ x, q x = true → p x = false) :
    (l.filter (fun x => !(p x))).find? q = l.find? q := by
  induction l with
  | nil => rfl
  | cons a t ih =>
    by_cases hq : q a = true
    · have hp := h a hq
      simp [List.filter_cons, hp, hq, ih]
    · have hq' : q a = false := Bool.eq_false_iff.mpr hq
      by_cases hp : p a = true
      · simp [List.filter_cons, hp, hq', ih]
      · have hp' : p a = false := Bool.eq_false_iff.mpr hp
        simp [List.filter_cons, hp', hq', ih]

/-- C2 (setGrants modelled from the spec — the resource-layer implementation
is absent from the source): on a store where the board and the user exist,
a request containing at least one name outside the catalog fails with a
conflict naming exactly the unknown entries and no state is produced (the
stored grant set stays what it was); a request of known names succeeds and
replaces the grant set of the pair wholesale — the stored set becomes
exactly the requested list and every other pair's grants are untouched. -/
theorem c2_set_grants_conflict_and_wholesale_replace :
    ∀ (db : Perms.PermDB) (board_id user_id : Nat) (names : List String),
    db.boards.contains board_id = true →
    db.users.contains user_id = true →
    ((names.filter (fun n => !Perms.CATALOG.contains n)).isEmpty = false →
      Perms.setGrants db board_id user_id names =
        .error (.conflict (names.filter (fun n => !Perms.CATALOG.contains n)))) ∧
    ((names.filter (fun n => !Perms.CATALOG.contains n)).isEmpty = true →
      ∃ db', Perms.setGrants db board_id user_id names = .ok db' ∧
        Perms.getGrants db' board_id user_id = names ∧
        (∀ b u, ¬(b = board_id ∧ u = user_id) →
          Perms.getGrants db' b u = Perms.getGrants db b u)) := by
  intro db board_id user_id names hb hu
  obtain ⟨bs, us, gs⟩ := db
  replace hb : bs.contains board_id = true := hb
  replace hu : us.contains user_id = true := hu
  constructor
  · intro hne
    simp only [Perms.setGrants, hb, hu, Bool.not_true]
    rw [hne]
    simp
  · intro hnil
    refine ⟨⟨bs, us,
      gs.filter (fun g => !(g.board_id == board_id && g.user_id == user_id)) ++
        [⟨board_id, user_id, names⟩]⟩, ?_, ?_, ?_⟩
    · simp only [Perms.setGrants, hb, hu, Bool.not_true]
      rw [hnil]
      simp
    · have h1 : (gs.filter (fun g =>
          !(g.board_id == board_id && g.user_id == user_id))).find?
            (fun g => g.board_id == board_id && g.user_id == user_id) = none := by
        rw [List.find?_eq_none]
        intro g hg hp
        rw [List.mem_filter] at hg
        rw [hp] at hg
        simp at hg
      simp only [Perms.getGrants]
      rw [List.find?_append, h1, Option.none_or]
      simp [List.find?]
    · intro b u hne
      have hdisj : ∀ g : Perms.GrantRow,
          (g.board_id == b && g.user_id == u) = true →
          (g.board_id == board_id && g.user_id == user_id) = false := by
        intro g hg
        apply Bool.eq_false_iff.mpr
        intro hp
        simp only [Bool.and_eq_true, beq_iff_eq] at hg hp
        exact hne ⟨by omega, by omega⟩
      have hrow : (List.find? (fun g => g.board_id == b && g.user_id == u)
          [(⟨board_id, user_id, names⟩ : Perms.GrantRow)]) = none := by
        have : ((⟨board_id, user_id, names⟩ : Perms.GrantRow).board_id == b &&
            (⟨board_id, user_id, names⟩ : Perms.GrantRow).user_id == u) = false := by
          apply Bool.eq_false_iff.mpr
          intro hp
          simp only [Bool.and_eq_true, beq_iff_eq] at hp
          exact hne ⟨by omega, by omega⟩
        simp [List.find?, this]
      simp only [Perms.getGrants]
      rw [List.find?_append, find?_filter_disjoint _ _ _ hdisj, hrow,
        Option.or_none]

/-- C2 witness: with board 1 and user 2 present and `TASK_CREATE` already
granted, requesting `[COLUMN_CREATE, NOT_A_REAL_CAP]` fails with a conflict
naming exactly `NOT_A_REAL_CAP`. -/
theorem c2_witness :
    Perms.setGrants ⟨[1], [2], [⟨1, 2, ["TASK_CREATE"]⟩]⟩ 1 2
        ["COLUMN_CREATE", "NOT_A_REAL_CAP"] =
      .error (.conflict ["NOT_A_REAL_CAP"]) := by
  have h := (c2_set_grants_conflict_and_wholesale_replace
    ⟨[1], [2], [⟨1, 2, ["TASK_CREATE"]⟩]⟩ 1 2 ["COLUMN_CREATE", "NOT_A_REAL_CAP"]
    (by decide) (by decide)).1 (by decide)
  simpa using h

end FlaskBan
